import Mathlib

/-!
Shallow embedding of the Agile Monte Carlo cost estimator
(src/agile-cost-estimator-montecarlo.py).

The per-trial model is pure arithmetic over the configuration and the six
random draws a trial consumes; it is embedded over `ℚ`.  Each numpy sampler
is modelled by its location–scale form applied to a raw (standard) draw:
`np.random.normal(m, s)` is `m + s * z` for a standard-normal raw `z`,
`np.random.exponential(s)` is `s * e` for a standard-exponential raw `e ≥ 0`,
`np.random.uniform(lo, hi)` is `lo + (hi - lo) * u` for `u ∈ [0,1]`, and the
beta draws are raws in `[0,1]`.
-/

namespace AgileEstimator

/-- Source line 96: `DAYS_PER_SPRINT = 10`. -/
def DAYS_PER_SPRINT : ℚ := 10

/-- Source line 97: `WORK_DAYS_PER_MONTH = 20`. -/
def WORK_DAYS_PER_MONTH : ℚ := 20

/-- Source line 98: `BASE_VELOCITY = 20`. -/
def BASE_VELOCITY : ℚ := 20

/-- The configuration assembled from the sidebar (source lines 20–93):
daily rates, headcounts, base scope, the four risk levels already divided
by 100, the cloud range (both 0 when cloud is disabled, line 75), the
managed-service flag and percentage (0 when disabled, line 91), and the
trial count.  The source exposes no reproducibility-seed input. -/
structure Config where
  rate_dev : ℚ
  rate_qa : ℚ
  rate_pm : ℚ
  num_dev : ℕ
  num_qa : ℕ
  num_pm : ℕ
  base_scope : ℚ
  risk_scope : ℚ
  risk_velocity : ℚ
  risk_bugs : ℚ
  risk_changes : ℚ
  use_cloud : Bool
  cloud_min : ℚ
  cloud_max : ℚ
  include_managed_service : Bool
  managed_service_pct : ℚ
  n_simulations : ℕ
  deriving Repr, DecidableEq

/-- The six raw draws one trial consumes (source lines 111, 112, 118, 132, 137),
in stream order: a standard-normal raw for scope volatility, a Beta(2,5) draw,
a standard-normal raw for velocity, a Beta(3,8) draw, a standard-exponential
raw, and a standard-uniform raw for the cloud cost. -/
structure Draws where
  zScope : ℚ
  betaRaw25 : ℚ
  zVel : ℚ
  betaRaw38 : ℚ
  expRaw : ℚ
  uRaw : ℚ
  deriving Repr, DecidableEq

/-- Support constraints of the raw draws: the beta and uniform raws lie in
`[0,1]` and the standard-exponential raw is nonnegative (the normal raws are
unconstrained). -/
def Draws.valid (d : Draws) : Prop :=
  0 ≤ d.betaRaw25 ∧ d.betaRaw25 ≤ 1 ∧
  0 ≤ d.betaRaw38 ∧ d.betaRaw38 ≤ 1 ∧
  0 ≤ d.expRaw ∧
  0 ≤ d.uRaw ∧ d.uRaw ≤ 1

instance (d : Draws) : Decidable d.valid := by
  unfold Draws.valid
  infer_instance

/-- `np.random.normal(mean, std)` in location–scale form. -/
def normalSample (mean std z : ℚ) : ℚ := mean + std * z

/-- `np.random.exponential(scale)` in scale form (`scale * e`, `e ≥ 0`). -/
def exponentialSample (scale e : ℚ) : ℚ := scale * e

/-- `np.random.uniform(lo, hi)` in location–scale form (`u ∈ [0,1]`). -/
def uniformSample (lo hi u : ℚ) : ℚ := lo + (hi - lo) * u

/-- Source line 111: `scope_volatility = np.random.normal(0, risk_scope)`. -/
def scopeVolatility (c : Config) (d : Draws) : ℚ :=
  normalSample 0 c.risk_scope d.zScope

/-- Source line 112: `scope_change = np.random.beta(2, 5) * risk_changes`. -/
def scopeChange (c : Config) (d : Draws) : ℚ :=
  d.betaRaw25 * c.risk_changes

/-- Source lines 113–114: `final_scope = base_scope * (1 + scope_volatility +
scope_change)` then `final_scope = max(100, final_scope)`. -/
def finalScope (c : Config) (d : Draws) : ℚ :=
  max 100 (c.base_scope * (1 + scopeVolatility c d + scopeChange c d))

/-- Source lines 117–118: `vel_std = BASE_VELOCITY * risk_velocity`;
`velocity = max(5, np.random.normal(BASE_VELOCITY, vel_std))`. -/
def velocity (c : Config) (d : Draws) : ℚ :=
  max 5 (normalSample BASE_VELOCITY (BASE_VELOCITY * c.risk_velocity) d.zVel)

/-- Source line 121: `sprints = final_scope / velocity`. -/
def sprints (c : Config) (d : Draws) : ℚ :=
  finalScope c d / velocity c d

/-- Source line 122: `total_days = sprints * DAYS_PER_SPRINT`. -/
def totalDays (c : Config) (d : Draws) : ℚ :=
  sprints c d * DAYS_PER_SPRINT

/-- Source line 123: `duration_months = total_days / WORK_DAYS_PER_MONTH`. -/
def durationMonths (c : Config) (d : Draws) : ℚ :=
  totalDays c d / WORK_DAYS_PER_MONTH

/-- Source lines 126–129: labor cost summed over developers, QA and PM. -/
def laborCost (c : Config) (d : Draws) : ℚ :=
  (c.num_dev : ℚ) * c.rate_dev * totalDays c d +
  (c.num_qa : ℚ) * c.rate_qa * totalDays c d +
  (c.num_pm : ℚ) * c.rate_pm * totalDays c d

/-- Source lines 132–133: `rework_factor = np.random.beta(3, 8) +
np.random.exponential(risk_bugs)` then `rework_factor = min(rework_factor, 1.0)`. -/
def reworkFactor (c : Config) (d : Draws) : ℚ :=
  min (d.betaRaw38 + exponentialSample c.risk_bugs d.expRaw) 1

/-- Source line 134: `rework_cost = rework_factor * labor_cost`. -/
def reworkCost (c : Config) (d : Draws) : ℚ :=
  reworkFactor c d * laborCost c d

/-- Source line 137: `monthly_cloud = np.random.uniform(cloud_min, cloud_max)`. -/
def monthlyCloud (c : Config) (d : Draws) : ℚ :=
  uniformSample c.cloud_min c.cloud_max d.uRaw

/-- Source line 138: `cloud_cost = monthly_cloud * duration_months`. -/
def cloudCost (c : Config) (d : Draws) : ℚ :=
  monthlyCloud c d * durationMonths c d

/-- Source line 141: `tco_one_off = labor_cost + rework_cost + cloud_cost`. -/
def tcoOneOff (c : Config) (d : Draws) : ℚ :=
  laborCost c d + reworkCost c d + cloudCost c d

/-- Source line 144: `managed_service_annual = managed_service_pct * tco_one_off
if include_managed_service else 0`. -/
def managedServiceAnnual (c : Config) (d : Draws) : ℚ :=
  if c.include_managed_service then c.managed_service_pct * tcoOneOff c d else 0

/-- Source line 147: `tco_total = tco_one_off + (managed_service_annual *
duration_months / 12)`. -/
def tcoTotal (c : Config) (d : Draws) : ℚ :=
  tcoOneOff c d + managedServiceAnnual c d * durationMonths c d / 12

/-- Source line 150: `target_markup = 1.20`. -/
def targetMarkup : ℚ := 6 / 5

/-- Source line 151: `revenue_one_off = tco_one_off * target_markup`. -/
def revenueOneOff (c : Config) (d : Draws) : ℚ :=
  tcoOneOff c d * targetMarkup

/-- Source line 152: `profit = revenue_one_off - tco_total`. -/
def profit (c : Config) (d : Draws) : ℚ :=
  revenueOneOff c d - tcoTotal c d

/-- Source line 153: `profit_margin = (profit / revenue_one_off) * 100
if revenue_one_off > 0 else 0`. -/
def profitMargin (c : Config) (d : Draws) : ℚ :=
  if 0 < revenueOneOff c d then profit c d / revenueOneOff c d * 100 else 0

/-- One row of the result table, exactly the dict appended at source
lines 156–175 (`Scope_SP` … `Risk_Changes`). -/
structure TrialRecord where
  scope_sp : ℚ
  velocity_sp : ℚ
  sprints : ℚ
  duration_days : ℚ
  duration_months : ℚ
  labor_cost : ℚ
  rework_cost : ℚ
  cloud_cost : ℚ
  managed_service_annual : ℚ
  tco_one_off : ℚ
  tco_total : ℚ
  revenue : ℚ
  profit : ℚ
  profit_margin_pct : ℚ
  risk_scope : ℚ
  risk_velocity : ℚ
  risk_bugs : ℚ
  risk_changes : ℚ
  deriving Repr, DecidableEq

/-- One trial of the loop body (source lines 109–175): combines the
configuration with one trial's draws into the stored record. -/
def evalTrial (c : Config) (d : Draws) : TrialRecord :=
  { scope_sp := finalScope c d
  , velocity_sp := velocity c d
  , sprints := sprints c d
  , duration_days := totalDays c d
  , duration_months := durationMonths c d
  , labor_cost := laborCost c d
  , rework_cost := reworkCost c d
  , cloud_cost := cloudCost c d
  , managed_service_annual := managedServiceAnnual c d
  , tco_one_off := tcoOneOff c d
  , tco_total := tcoTotal c d
  , revenue := revenueOneOff c d
  , profit := profit c d
  , profit_margin_pct := profitMargin c d
  , risk_scope := c.risk_scope
  , risk_velocity := c.risk_velocity
  , risk_bugs := c.risk_bugs
  , risk_changes := c.risk_changes }

/-- Guarded division: `none` exactly when the divisor is zero (a Python
division raises `ZeroDivisionError` there; otherwise it returns the quotient). -/
def checkedDiv (a b : ℚ) : Option ℚ :=
  if b = 0 then none else some (a / b)

/-- The trial body with every division guarded (source lines 121, 123, 147,
153): `none` would mean a trial raises a division error. -/
def evalTrialChecked (c : Config) (d : Draws) : Option TrialRecord := do
  let fs := finalScope c d
  let v := velocity c d
  let spr ← checkedDiv fs v
  let td := spr * DAYS_PER_SPRINT
  let dm ← checkedDiv td WORK_DAYS_PER_MONTH
  let labor := (c.num_dev : ℚ) * c.rate_dev * td +
    (c.num_qa : ℚ) * c.rate_qa * td + (c.num_pm : ℚ) * c.rate_pm * td
  let rw := reworkFactor c d * labor
  let cc := monthlyCloud c d * dm
  let oneOff := labor + rw + cc
  let msa := if c.include_managed_service then c.managed_service_pct * oneOff else 0
  let amortized ← checkedDiv (msa * dm) 12
  let total := oneOff + amortized
  let rev := oneOff * targetMarkup
  let prof := rev - total
  let margin ← if 0 < rev then do
      let q ← checkedDiv prof rev
      pure (q * 100)
    else pure (0 : ℚ)
  pure { scope_sp := fs, velocity_sp := v, sprints := spr, duration_days := td
       , duration_months := dm, labor_cost := labor, rework_cost := rw
       , cloud_cost := cc, managed_service_annual := msa, tco_one_off := oneOff
       , tco_total := total, revenue := rev, profit := prof
       , profit_margin_pct := margin, risk_scope := c.risk_scope
       , risk_velocity := c.risk_velocity, risk_bugs := c.risk_bugs
       , risk_changes := c.risk_changes }

/-!
## The Simulation Runner

Source line 106 seeds numpy's global RNG with the literal `42` and line 109
iterates the trial body `n_simulations` times, each trial consuming the next
six draws of the single seeded stream.
-/

/-- Modelled from the spec: the seeded global RNG stream that
`np.random.seed` initializes is numpy library internals, not code of this
repository; per §4.3/§5 of the spec it is a deterministic stream fully
determined by the seed, modelled here as a 64-bit linear congruential
generator. -/
def lcg (s : ℕ) : ℕ :=
  (6364136223846793005 * s + 1442695040888963407) % 18446744073709551616

/-- `n`-fold iterate of the stream transition from a seed. -/
def lcgIter : ℕ → ℕ → ℕ
  | 0, s => s
  | n + 1, s => lcg (lcgIter n s)

/-- A raw state folded into a rational in `[0,1)`. -/
def unitDraw (s : ℕ) : ℚ :=
  ((s % 4294967296 : ℕ) : ℚ) / 4294967296

/-- The six draws trial `i` consumes from the stream seeded with `seed`
(positions `6*i+1 … 6*i+6`, matching the source's single-stream order of
lines 111, 112, 118, 132, 137); the two normal raws are recentred to a
sign-varying range. -/
def drawsAt (seed i : ℕ) : Draws :=
  { zScope := unitDraw (lcgIter (6 * i + 1) seed) * 4 - 2
  , betaRaw25 := unitDraw (lcgIter (6 * i + 2) seed)
  , zVel := unitDraw (lcgIter (6 * i + 3) seed) * 4 - 2
  , betaRaw38 := unitDraw (lcgIter (6 * i + 4) seed)
  , expRaw := unitDraw (lcgIter (6 * i + 5) seed)
  , uRaw := unitDraw (lcgIter (6 * i + 6) seed) }

/-- The trial loop (source lines 107–177) run from a given seed: trial `i`
evaluates the body on the `i`-th block of draws of the seeded stream. -/
def runSimulationSeeded (seed : ℕ) (c : Config) : List TrialRecord :=
  (List.range c.n_simulations).map (fun i => evalTrial c (drawsAt seed i))

/-- The Runner as the source executes it: `np.random.seed(42)` (line 106)
followed by the trial loop. -/
def runSimulation (c : Config) : List TrialRecord :=
  runSimulationSeeded 42 c

/-- The Runner invoked with an externally intended reproducibility seed: the
source exposes no seed input and line 106 seeds with the literal `42`
unconditionally, so the intended seed has no effect on the run. -/
def runSimulationIntended (_intendedSeed : ℕ) (c : Config) : List TrialRecord :=
  runSimulationSeeded 42 c

/-!
## Configuration construction (sidebar, source lines 20–93)

Streamlit widgets constrain only what each widget's own bounds constrain:
a slider clamps its value into `[lo, hi]`; a `number_input` with a
`min_value` keeps its value at least that minimum; a `number_input` without
bounds (the three rates and the base scope) accepts any number.  No other
validation exists in the source.
-/

/-- What the user typed or dragged in the sidebar before widget bounds
apply (the slider fields are the raw percent/count positions). -/
structure RawInputs where
  rate_dev : ℚ
  rate_qa : ℚ
  rate_pm : ℚ
  num_dev : ℤ
  num_qa : ℤ
  num_pm : ℤ
  base_scope : ℚ
  risk_scope_pct : ℤ
  risk_velocity_pct : ℤ
  risk_bugs_pct : ℤ
  risk_changes_pct : ℤ
  use_cloud : Bool
  cloud_min_req : ℚ
  cloud_max_req : ℚ
  include_managed_service : Bool
  managed_service_pct_req : ℤ
  n_simulations_req : ℤ
  deriving Repr, DecidableEq

/-- A slider keeps its value inside `[lo, hi]`. -/
def sliderClamp (lo hi v : ℤ) : ℤ := min hi (max lo v)

/-- A `number_input` with a `min_value` keeps its value at least `lo`. -/
def numberClampMin (lo v : ℚ) : ℚ := max lo v

/-- Configuration construction (source lines 20–93): the rates and base
scope pass through unvalidated; risk sliders clamp to `0–100` and divide by
100; cloud min/max clamp only to their individual minima (500 and 1000,
lines 72–73) and are both 0 when cloud is disabled (line 75); the
managed-service slider clamps to `5–50` and divides by 100, 0 when disabled
(line 91); the trial-count slider clamps to `1000–10000` (line 93).
It never fails: there is no validation failure path in the source. -/
def mkConfig (r : RawInputs) : Config :=
  { rate_dev := r.rate_dev
  , rate_qa := r.rate_qa
  , rate_pm := r.rate_pm
  , num_dev := (sliderClamp 1 4 r.num_dev).toNat
  , num_qa := (sliderClamp 1 4 r.num_qa).toNat
  , num_pm := (sliderClamp 0 2 r.num_pm).toNat
  , base_scope := r.base_scope
  , risk_scope := (sliderClamp 0 100 r.risk_scope_pct : ℚ) / 100
  , risk_velocity := (sliderClamp 0 100 r.risk_velocity_pct : ℚ) / 100
  , risk_bugs := (sliderClamp 0 100 r.risk_bugs_pct : ℚ) / 100
  , risk_changes := (sliderClamp 0 100 r.risk_changes_pct : ℚ) / 100
  , use_cloud := r.use_cloud
  , cloud_min := if r.use_cloud then numberClampMin 500 r.cloud_min_req else 0
  , cloud_max := if r.use_cloud then numberClampMin 1000 r.cloud_max_req else 0
  , include_managed_service := r.include_managed_service
  , managed_service_pct :=
      if r.include_managed_service
      then (sliderClamp 5 50 r.managed_service_pct_req : ℚ) / 100
      else 0
  , n_simulations := (sliderClamp 1000 10000 r.n_simulations_req).toNat }

/-!
## Export (source lines 247–250)

`df[['Duration_Months', 'TCO_OneOff', 'Managed_Service_Annual', 'TCO_Total',
'Profit', 'Profit_Margin_%', 'Scope_SP', 'Sprints']].round(2).to_csv(...)`:
eight columns, each value rounded to 2 decimal places with numpy's
round-half-to-even, then written as an exact decimal with two places.
-/

/-- numpy/pandas round-half-to-even on a rational, to an integer. -/
def roundHalfEven (x : ℚ) : ℤ :=
  if x - Int.floor x < 1 / 2 then Int.floor x
  else if 1 / 2 < x - Int.floor x then Int.floor x + 1
  else if Int.floor x % 2 = 0 then Int.floor x else Int.floor x + 1

/-- `round(2)`: round to two decimal places, half to even. -/
def round2 (x : ℚ) : ℚ := (roundHalfEven (100 * x) : ℚ) / 100

/-- The integer number of hundredths a cell is written as in the file. -/
def exportCell (x : ℚ) : ℤ := roundHalfEven (100 * x)

/-- Re-parsing a two-decimal cell from the file. -/
def parseCell (n : ℤ) : ℚ := (n : ℚ) / 100

/-- The record fields selected for export, in the source's column order
`Duration_Months, TCO_OneOff, Managed_Service_Annual, TCO_Total, Profit,
Profit_Margin_%, Scope_SP, Sprints` (lines 247–250). -/
def exportFields (r : TrialRecord) : List ℚ :=
  [r.duration_months, r.tco_one_off, r.managed_service_annual, r.tco_total,
   r.profit, r.profit_margin_pct, r.scope_sp, r.sprints]

/-- One exported row: the selected columns, each rounded to 2 decimals. -/
def exportRow (r : TrialRecord) : List ℚ :=
  [round2 r.duration_months, round2 r.tco_one_off,
   round2 r.managed_service_annual, round2 r.tco_total,
   round2 r.profit, round2 r.profit_margin_pct,
   round2 r.scope_sp, round2 r.sprints]

/-!
## Concrete configurations and draws used by witnesses
-/

/-- Scenario A of the spec: base scope 500, rates 400/350/500 with
headcounts 2/2/1, all risk levels 0, cloud disabled, managed service
disabled. -/
def scenarioA : Config :=
  { rate_dev := 400, rate_qa := 350, rate_pm := 500
  , num_dev := 2, num_qa := 2, num_pm := 1
  , base_scope := 500
  , risk_scope := 0, risk_velocity := 0, risk_bugs := 0, risk_changes := 0
  , use_cloud := false, cloud_min := 0, cloud_max := 0
  , include_managed_service := false, managed_service_pct := 0
  , n_simulations := 5000 }

/-- Scenario B of the spec: cloud enabled with range 1000–5000 and managed
service enabled at 15%, otherwise as Scenario A. -/
def scenarioB : Config :=
  { rate_dev := 400, rate_qa := 350, rate_pm := 500
  , num_dev := 2, num_qa := 2, num_pm := 1
  , base_scope := 500
  , risk_scope := 0, risk_velocity := 0, risk_bugs := 0, risk_changes := 0
  , use_cloud := true, cloud_min := 1000, cloud_max := 5000
  , include_managed_service := true, managed_service_pct := 3 / 20
  , n_simulations := 5000 }

/-- A configuration with all rates 0 (accepted by the unvalidated rate
inputs), so every cost and the revenue are 0. -/
def cfgZeroRates : Config :=
  { rate_dev := 0, rate_qa := 0, rate_pm := 0
  , num_dev := 2, num_qa := 2, num_pm := 1
  , base_scope := 500
  , risk_scope := 0, risk_velocity := 0, risk_bugs := 0, risk_changes := 0
  , use_cloud := false, cloud_min := 0, cloud_max := 0
  , include_managed_service := false, managed_service_pct := 0
  , n_simulations := 5000 }

/-- The all-zero raw draws (inside every sampler's support). -/
def draws0 : Draws :=
  { zScope := 0, betaRaw25 := 0, zVel := 0, betaRaw38 := 0, expRaw := 0, uRaw := 0 }

/-- Raw draws whose Beta(3,8) component is 1/2, the rest zero. -/
def drawsHalfBeta : Draws :=
  { zScope := 0, betaRaw25 := 0, zVel := 0, betaRaw38 := 1 / 2, expRaw := 0, uRaw := 0 }

/-!
## Basic facts about the evaluator
-/

lemma five_le_velocity (c : Config) (d : Draws) : 5 ≤ velocity c d :=
  le_max_left _ _

lemma velocity_pos (c : Config) (d : Draws) : 0 < velocity c d :=
  lt_of_lt_of_le (by norm_num) (five_le_velocity c d)

lemma velocity_ne_zero (c : Config) (d : Draws) : velocity c d ≠ 0 :=
  ne_of_gt (velocity_pos c d)

/-!
## C2: scope and velocity floors
-/

/-- C2: for every configuration and every draw, the recorded final scope is
at least 100 story points and the recorded velocity is at least 5 story
points per sprint. -/
theorem trial_scope_velocity_floors (c : Config) (d : Draws) :
    100 ≤ (evalTrial c d).scope_sp ∧ 5 ≤ (evalTrial c d).velocity_sp := by
  refine ⟨?_, ?_⟩
  · show 100 ≤ finalScope c d
    exact le_max_left _ _
  · show 5 ≤ velocity c d
    exact five_le_velocity c d

/-!
## C3: rework factor bounds and shape
-/

/-- C3: for every trial whose raw draws are in the samplers' support and
whose bug-risk level is nonnegative, the rework factor lies in `[0, 1]`, is
the Beta(3,8) draw plus the bug-risk-scaled exponential draw capped at 1,
and is the factor multiplied into the labor cost to give the rework cost. -/
theorem rework_factor_in_unit_interval (c : Config) (d : Draws)
    (hb : 0 ≤ c.risk_bugs) (hd : d.valid) :
    0 ≤ reworkFactor c d ∧ reworkFactor c d ≤ 1 ∧
    reworkFactor c d = min (d.betaRaw38 + c.risk_bugs * d.expRaw) 1 ∧
    (evalTrial c d).rework_cost = reworkFactor c d * (evalTrial c d).labor_cost := by
  obtain ⟨_, _, h38lo, _, hexp, _, _⟩ := hd
  refine ⟨?_, min_le_right _ _, rfl, rfl⟩
  exact le_min (add_nonneg h38lo (mul_nonneg hb hexp)) (by norm_num)

/-- Witness for C3 at Scenario A and the all-zero draws. -/
theorem rework_factor_in_unit_interval_witness :
    0 ≤ scenarioA.risk_bugs ∧ draws0.valid ∧
      (0 ≤ reworkFactor scenarioA draws0 ∧ reworkFactor scenarioA draws0 ≤ 1 ∧
       reworkFactor scenarioA draws0 =
         min (draws0.betaRaw38 + scenarioA.risk_bugs * draws0.expRaw) 1 ∧
       (evalTrial scenarioA draws0).rework_cost =
         reworkFactor scenarioA draws0 * (evalTrial scenarioA draws0).labor_cost) :=
  ⟨by norm_num [scenarioA], by norm_num [Draws.valid, draws0],
   rework_factor_in_unit_interval scenarioA draws0 (by norm_num [scenarioA])
     (by norm_num [Draws.valid, draws0])⟩

/-!
## C5: guarded profit margin
-/

/-- C5: the recorded profit margin equals `100 * profit / revenue` whenever
the revenue is strictly positive, and is exactly 0 whenever the revenue is
not strictly positive. -/
theorem profit_margin_guarded (c : Config) (d : Draws) :
    (0 < (evalTrial c d).revenue →
      (evalTrial c d).profit_margin_pct =
        100 * (evalTrial c d).profit / (evalTrial c d).revenue) ∧
    ((evalTrial c d).revenue ≤ 0 → (evalTrial c d).profit_margin_pct = 0) := by
  constructor
  · intro h
    have h1 : 0 < revenueOneOff c d := h
    show profitMargin c d = 100 * profit c d / revenueOneOff c d
    rw [profitMargin, if_pos h1, div_mul_eq_mul_div, mul_comm]
  · intro h
    have h1 : revenueOneOff c d ≤ 0 := h
    show profitMargin c d = 0
    rw [profitMargin, if_neg (not_lt.mpr h1)]

/-- Witness for C5: at Scenario B the revenue is positive and the margin is
the quotient form; with all rates 0 the revenue is 0 and the margin is 0. -/
theorem profit_margin_guarded_witness :
    ((evalTrial scenarioB draws0).profit_margin_pct =
      100 * (evalTrial scenarioB draws0).profit / (evalTrial scenarioB draws0).revenue) ∧
    (evalTrial cfgZeroRates draws0).profit_margin_pct = 0 := by
  refine ⟨(profit_margin_guarded scenarioB draws0).1 ?_,
          (profit_margin_guarded cfgZeroRates draws0).2 ?_⟩
  · show 0 < revenueOneOff scenarioB draws0
    norm_num [revenueOneOff, targetMarkup, tcoOneOff, laborCost, reworkCost,
      reworkFactor, exponentialSample, cloudCost, monthlyCloud, uniformSample,
      durationMonths, totalDays, sprints, finalScope, velocity, scopeVolatility,
      scopeChange, normalSample, DAYS_PER_SPRINT, WORK_DAYS_PER_MONTH,
      BASE_VELOCITY, scenarioB, draws0]
  · show revenueOneOff cfgZeroRates draws0 ≤ 0
    norm_num [revenueOneOff, targetMarkup, tcoOneOff, laborCost, reworkCost,
      reworkFactor, exponentialSample, cloudCost, monthlyCloud, uniformSample,
      durationMonths, totalDays, sprints, finalScope, velocity, scopeVolatility,
      scopeChange, normalSample, DAYS_PER_SPRINT, WORK_DAYS_PER_MONTH,
      BASE_VELOCITY, cfgZeroRates, draws0]

/-!
## C6: total cost of ownership composition
-/

/-- C6: the recorded total cost of ownership is the one-off cost plus the
annual managed-service cost amortized over the duration; it strictly exceeds
the one-off cost whenever the managed-service cost and the duration are
positive, and equals it when the managed service is disabled. -/
theorem tco_total_composition (c : Config) (d : Draws) :
    (evalTrial c d).tco_total =
      (evalTrial c d).tco_one_off +
        (evalTrial c d).managed_service_annual * (evalTrial c d).duration_months / 12 ∧
    (0 < (evalTrial c d).managed_service_annual →
      0 < (evalTrial c d).duration_months →
      (evalTrial c d).tco_one_off < (evalTrial c d).tco_total) ∧
    (c.include_managed_service = false →
      (evalTrial c d).tco_total = (evalTrial c d).tco_one_off) := by
  refine ⟨rfl, ?_, ?_⟩
  · intro h1 h2
    have hmsa : 0 < managedServiceAnnual c d := h1
    have hdm : 0 < durationMonths c d := h2
    show tcoOneOff c d < tcoTotal c d
    rw [tcoTotal]
    have hpos : 0 < managedServiceAnnual c d * durationMonths c d / 12 :=
      div_pos (mul_pos hmsa hdm) (by norm_num)
    linarith
  · intro h
    show tcoTotal c d = tcoOneOff c d
    rw [tcoTotal, managedServiceAnnual, h]
    simp

/-- Witness for C6 at Scenario B and the all-zero draws: the managed-service
cost and duration are positive and the total strictly exceeds the one-off. -/
theorem tco_total_composition_witness :
    0 < (evalTrial scenarioB draws0).managed_service_annual ∧
    0 < (evalTrial scenarioB draws0).duration_months ∧
    (evalTrial scenarioB draws0).tco_one_off < (evalTrial scenarioB draws0).tco_total := by
  have h1 : 0 < (evalTrial scenarioB draws0).managed_service_annual := by
    show 0 < managedServiceAnnual scenarioB draws0
    norm_num [managedServiceAnnual, tcoOneOff, laborCost, reworkCost,
      reworkFactor, exponentialSample, cloudCost, monthlyCloud, uniformSample,
      durationMonths, totalDays, sprints, finalScope, velocity, scopeVolatility,
      scopeChange, normalSample, DAYS_PER_SPRINT, WORK_DAYS_PER_MONTH,
      BASE_VELOCITY, scenarioB, draws0]
  have h2 : 0 < (evalTrial scenarioB draws0).duration_months := by
    show 0 < durationMonths scenarioB draws0
    norm_num [durationMonths, totalDays, sprints, finalScope, velocity,
      scopeVolatility, scopeChange, normalSample, DAYS_PER_SPRINT,
      WORK_DAYS_PER_MONTH, BASE_VELOCITY, scenarioB, draws0]
  exact ⟨h1, h2, (tco_total_composition scenarioB draws0).2.1 h1 h2⟩

/-!
## C4: Scenario A, the degenerate no-risk configuration
-/

/-- C4: with Scenario A's configuration every trial has velocity exactly 20,
25 sprints, 250 work-days, 12.5 months and labor cost 500000, with the
rework cost in `[0, 500000]`; and the rework cost is not forced to 0 — a
valid draw realizes a positive rework cost even at zero bug-risk. -/
theorem scenarioA_degenerate_exact :
    (∀ d : Draws, d.valid →
      (evalTrial scenarioA d).velocity_sp = 20 ∧
      (evalTrial scenarioA d).sprints = 25 ∧
      (evalTrial scenarioA d).duration_days = 250 ∧
      (evalTrial scenarioA d).duration_months = 25 / 2 ∧
      (evalTrial scenarioA d).labor_cost = 500000 ∧
      0 ≤ (evalTrial scenarioA d).rework_cost ∧
      (evalTrial scenarioA d).rework_cost ≤ 500000) ∧
    (∃ d : Draws, d.valid ∧ 0 < (evalTrial scenarioA d).rework_cost) := by
  constructor
  · intro d hd
    obtain ⟨_, _, h38lo, h38hi, _, _, _⟩ := hd
    have hv : velocity scenarioA d = 20 := by
      norm_num [velocity, normalSample, scenarioA, BASE_VELOCITY]
    have hfs : finalScope scenarioA d = 500 := by
      norm_num [finalScope, scopeVolatility, scopeChange, normalSample, scenarioA]
    have hspr : sprints scenarioA d = 25 := by
      rw [sprints, hv, hfs]; norm_num
    have htd : totalDays scenarioA d = 250 := by
      rw [totalDays, hspr, DAYS_PER_SPRINT]; norm_num
    have hdm : durationMonths scenarioA d = 25 / 2 := by
      rw [durationMonths, htd, WORK_DAYS_PER_MONTH]; norm_num
    have hlabor : laborCost scenarioA d = 500000 := by
      rw [laborCost, htd]; norm_num [scenarioA]
    have hrf : reworkFactor scenarioA d = min d.betaRaw38 1 := by
      norm_num [reworkFactor, exponentialSample, scenarioA]
    have hrflo : 0 ≤ reworkFactor scenarioA d := by
      rw [hrf]; exact le_min h38lo (by norm_num)
    have hrfhi : reworkFactor scenarioA d ≤ 1 := by
      rw [hrf]; exact min_le_right _ _
    refine ⟨hv, hspr, htd, hdm, hlabor, ?_, ?_⟩
    · show 0 ≤ reworkCost scenarioA d
      rw [reworkCost, hlabor]
      positivity
    · show reworkCost scenarioA d ≤ 500000
      rw [reworkCost, hlabor]
      nlinarith
  · refine ⟨drawsHalfBeta, by norm_num [Draws.valid, drawsHalfBeta], ?_⟩
    show 0 < reworkCost scenarioA drawsHalfBeta
    norm_num [reworkCost, reworkFactor, exponentialSample, laborCost, totalDays,
      sprints, finalScope, velocity, scopeVolatility, scopeChange, normalSample,
      DAYS_PER_SPRINT, BASE_VELOCITY, scenarioA, drawsHalfBeta]

/-- Witness for C4 at the all-zero draws: the hypotheses of the universally
quantified part hold and the exact values follow. -/
theorem scenarioA_degenerate_exact_witness :
    draws0.valid ∧
    ((evalTrial scenarioA draws0).velocity_sp = 20 ∧
     (evalTrial scenarioA draws0).sprints = 25 ∧
     (evalTrial scenarioA draws0).duration_days = 250 ∧
     (evalTrial scenarioA draws0).duration_months = 25 / 2 ∧
     (evalTrial scenarioA draws0).labor_cost = 500000 ∧
     0 ≤ (evalTrial scenarioA draws0).rework_cost ∧
     (evalTrial scenarioA draws0).rework_cost ≤ 500000) := by
  refine ⟨?_, scenarioA_degenerate_exact.1 draws0 ?_⟩ <;>
    norm_num [Draws.valid, draws0]

/-!
## C7: every division is guarded
-/

/-- C7: evaluating a trial performs no division by zero: the guarded trial
body succeeds on every configuration and every draw and returns exactly the
unguarded trial record — the sprint division's divisor is the velocity
(floored at 5), the profit-margin division happens only under
`0 < revenue`, and the remaining divisors are the constants 20 and 12. -/
theorem trial_divisions_guarded (c : Config) (d : Draws) :
    evalTrialChecked c d = some (evalTrial c d) := by
  have hv : velocity c d ≠ 0 := velocity_ne_zero c d
  by_cases hrev : 0 < revenueOneOff c d
  · have hrevne : revenueOneOff c d ≠ 0 := ne_of_gt hrev
    simp [revenueOneOff, tcoOneOff, laborCost, reworkCost, cloudCost,
      totalDays, sprints, durationMonths, managedServiceAnnual, targetMarkup,
      WORK_DAYS_PER_MONTH, DAYS_PER_SPRINT] at hrev hrevne
    simp [evalTrialChecked, checkedDiv, hv, hrev, hrevne, evalTrial,
      WORK_DAYS_PER_MONTH, DAYS_PER_SPRINT, sprints, totalDays,
      durationMonths, laborCost, reworkCost, cloudCost, tcoOneOff,
      managedServiceAnnual, tcoTotal, revenueOneOff, profit, profitMargin,
      targetMarkup]
  · have h2 := hrev
    simp [revenueOneOff, tcoOneOff, laborCost, reworkCost, cloudCost,
      totalDays, sprints, durationMonths, managedServiceAnnual, targetMarkup,
      WORK_DAYS_PER_MONTH, DAYS_PER_SPRINT] at h2
    have h3 := not_lt.mpr h2
    simp [evalTrialChecked, checkedDiv, hv, h3, evalTrial,
      WORK_DAYS_PER_MONTH, DAYS_PER_SPRINT, sprints, totalDays,
      durationMonths, laborCost, reworkCost, cloudCost, tcoOneOff,
      managedServiceAnnual, tcoTotal, revenueOneOff, profit, profitMargin,
      targetMarkup]

/-!
## C1: determinism of the Runner
-/

/-- C1: two runs of the Runner with the same configuration (which carries
the trial count) and the same intended reproducibility seed produce
identical trial tables, with one record per trial. -/
theorem runner_deterministic (s1 s2 : ℕ) (c1 c2 : Config)
    (hs : s1 = s2) (hc : c1 = c2) :
    runSimulationIntended s1 c1 = runSimulationIntended s2 c2 ∧
    (runSimulationIntended s1 c1).length = c1.n_simulations := by
  subst hs hc
  exact ⟨rfl, by simp [runSimulationIntended, runSimulationSeeded]⟩

/-- Witness for C1: two runs with seed 7 and Scenario A agree. -/
theorem runner_deterministic_witness :
    runSimulationIntended 7 scenarioA = runSimulationIntended 7 scenarioA ∧
    (runSimulationIntended 7 scenarioA).length = scenarioA.n_simulations :=
  runner_deterministic 7 7 scenarioA scenarioA rfl rfl

/-!
## C10: the seed is the hard-coded constant 42
-/

/-- C10: the Runner always runs the stream seeded with the constant 42; any
intended reproducibility seed has no effect, so the trial table is a
function of the configuration (and its trial count) alone. -/
theorem seed_hardcoded_42 :
    (∀ c : Config, runSimulation c = runSimulationSeeded 42 c) ∧
    (∀ (s1 s2 : ℕ) (c : Config),
      runSimulationIntended s1 c = runSimulationIntended s2 c) ∧
    (∀ (s : ℕ) (c : Config), runSimulationIntended s c = runSimulation c) :=
  ⟨fun _ => rfl, fun _ _ _ => rfl, fun _ _ => rfl⟩

/-!
## C8: invalid configurations are not rejected
-/

/-- Sidebar entries with a negative developer rate and a cloud minimum above
the cloud maximum — invalid per the spec's validation taxonomy. -/
def rawInvalid : RawInputs :=
  { rate_dev := -4000, rate_qa := 350, rate_pm := 500
  , num_dev := 2, num_qa := 2, num_pm := 1
  , base_scope := 500
  , risk_scope_pct := 0, risk_velocity_pct := 0
  , risk_bugs_pct := 0, risk_changes_pct := 0
  , use_cloud := true, cloud_min_req := 9000, cloud_max_req := 5000
  , include_managed_service := false, managed_service_pct_req := 15
  , n_simulations_req := 5000 }

/-- C8 evidence: configuration construction accepts a negative developer
rate and a cloud minimum above the cloud maximum — no validation failure
exists — and the invalid values propagate into the simulation as a negative
labor cost. -/
theorem invalid_config_accepted :
    (mkConfig rawInvalid).rate_dev = -4000 ∧
    (mkConfig rawInvalid).cloud_max < (mkConfig rawInvalid).cloud_min ∧
    (evalTrial (mkConfig rawInvalid) draws0).labor_cost < 0 := by
  refine ⟨rfl, ?_, ?_⟩
  · norm_num [mkConfig, rawInvalid, numberClampMin]
  · show laborCost (mkConfig rawInvalid) draws0 < 0
    have h2 : ((2 : ℤ).toNat : ℚ) = 2 := rfl
    norm_num [h2, laborCost, totalDays, sprints, finalScope, velocity,
      scopeVolatility, scopeChange, normalSample, DAYS_PER_SPRINT,
      BASE_VELOCITY, mkConfig, rawInvalid, sliderClamp, numberClampMin,
      Int.toNat_ofNat, draws0]

/-!
## C9: the eight-column export and its rounding
-/

lemma roundHalfEven_close (x : ℚ) : |(roundHalfEven x : ℚ) - x| ≤ 1 / 2 := by
  have h0 : (Int.floor x : ℚ) ≤ x := Int.floor_le x
  have h1 : x < Int.floor x + 1 := Int.lt_floor_add_one x
  rw [roundHalfEven]
  split_ifs with hlt hgt hev <;>
    · rw [abs_le]
      constructor <;> push_cast <;> linarith

lemma round2_close (x : ℚ) : |round2 x - x| ≤ 1 / 200 := by
  have h := roundHalfEven_close (100 * x)
  rw [round2]
  have hr : (roundHalfEven (100 * x) : ℚ) / 100 - x =
      ((roundHalfEven (100 * x) : ℚ) - 100 * x) / 100 := by ring
  rw [hr, abs_div, abs_of_pos (show (0 : ℚ) < 100 by norm_num)]
  linarith

lemma roundHalfEven_intCast (n : ℤ) : roundHalfEven (n : ℚ) = n := by
  norm_num [roundHalfEven, Int.floor_intCast]

lemma round_trip_cell (x : ℚ) : parseCell (exportCell (round2 x)) = round2 x := by
  rw [parseCell, exportCell, round2]
  have hc : (100 : ℚ) * ((roundHalfEven (100 * x) : ℚ) / 100) =
      (roundHalfEven (100 * x) : ℚ) := by ring
  rw [hc, roundHalfEven_intCast]

/-- C9: the export of a trial record has exactly the eight specified columns
in order, each the corresponding field rounded to 2 decimal places; every
exported value is within 1/200 of the field it came from, and re-parsing
the written two-decimal cells reproduces the exported row exactly. -/
theorem export_eight_columns_round_trip (r : TrialRecord) :
    exportRow r = (exportFields r).map round2 ∧
    (exportRow r).length = 8 ∧
    List.Forall₂ (fun e x => |e - x| ≤ 1 / 200) (exportRow r) (exportFields r) ∧
    (exportRow r).map (fun x => parseCell (exportCell x)) = exportRow r := by
  refine ⟨rfl, rfl, ?_, ?_⟩
  · simp only [exportRow, exportFields]
    exact .cons (round2_close _) (.cons (round2_close _) (.cons (round2_close _)
      (.cons (round2_close _) (.cons (round2_close _) (.cons (round2_close _)
      (.cons (round2_close _) (.cons (round2_close _) .nil)))))))
  · simp [exportRow, round_trip_cell]

end AgileEstimator
